import Mathlib

/-!
# Bonding-curve edition pricing: a shallow embedding

This file embeds the two Rust/Anchor program variants of the bonding-curve
repository (`programs/bonding-curve/src/lib.rs`, the primary variant, and
`programs/bonding-curve/src/lib_with_metaplex.rs`, the earlier Metaplex
variant) and proves properties of the pricing and supply-accounting state
machine.

Machine integers (`u64`, `u32`) are embedded as `Nat` with explicit range
checks mirroring the source's `checked_add`/`checked_mul`/`checked_sub`
calls.  A Rust panic (an `unwrap()` of `None`, or a division by zero)
aborts the whole Solana transaction with every account write rolled back,
and is modelled as `none` / an `aborted` error with the pre-state returned
unchanged.  External collaborators (the system-program payment transfer and
the token/metadata issuance CPIs) are modelled as boolean oracles: the
embedding decides only what happens before, between and after those calls.
-/

namespace BondingCurveSpec

/-- Number of values of a `u64`. -/
def U64SIZE : Nat := 2 ^ 64

/-- Number of values of a `u32`. -/
def U32SIZE : Nat := 2 ^ 32

/-- Rust `u64::checked_add`: `some` of the sum when it fits in 64 bits. -/
def checkedAdd (a b : Nat) : Option Nat :=
  if a + b < U64SIZE then some (a + b) else none

/-- Rust `u64::checked_mul`: `some` of the product when it fits in 64 bits. -/
def checkedMul (a b : Nat) : Option Nat :=
  if a * b < U64SIZE then some (a * b) else none

/-- Rust `u64::checked_sub`: `some` of the difference when it does not underflow. -/
def checkedSub (a b : Nat) : Option Nat :=
  if b ≤ a then some (a - b) else none

/-- Rust `u32::checked_mul`: `some` of the product when it fits in 32 bits. -/
def checkedMul32 (a b : Nat) : Option Nat :=
  if a * b < U32SIZE then some (a * b) else none

/-- Modelled from the spec: the source's plain (unchecked) `u64` subtraction
`edition as u64 - 1`.  Whether this wraps or panics on underflow is decided by
the release-profile `overflow-checks` setting of the workspace `Cargo.toml`,
which is not among the provided source files; the spec (§7) requires that
arithmetic is "never silently saturated or wrapped", matching the Anchor
default `overflow-checks = true`, so unchecked arithmetic is modelled as
aborting (`none`, i.e. a panic that rolls the transaction back) on underflow. -/
def uncheckedSub (a b : Nat) : Option Nat :=
  if b ≤ a then some (a - b) else none

/-- Modelled from the spec: the source's plain (unchecked) `u64` addition
(`total_volume += price`).  As for `uncheckedSub`, the missing `Cargo.toml`
release profile decides wrap-vs-panic; per the spec's no-wrapping rule it is
modelled as aborting (`none`) on overflow. -/
def uncheckedAdd64 (a b : Nat) : Option Nat :=
  if a + b < U64SIZE then some (a + b) else none

/-- Modelled from the spec: the source's plain (unchecked) `u32` addition
(`current_supply += 1`), modelled as aborting (`none`) on overflow, as for
`uncheckedAdd64`. -/
def uncheckedAdd32 (a b : Nat) : Option Nat :=
  if a + b < U32SIZE then some (a + b) else none

/-- The `CurveType` enum of `lib.rs`. -/
inductive CurveType where
  | Linear
  | Exponential
  | Logarithmic
  | Bezier
deriving DecidableEq

/-- The `BondingCurveError` enum of `lib.rs` (a superset of the Metaplex
variant's error enum). -/
inductive BondingCurveError where
  | MaxSupplyReached
  | Unauthorized
  | InvalidMaxSupply
  | CurveNotEmpty
  | ArithmeticOverflow
  | InvalidPriceLookup
  | PriceNotFound
  | InvalidCurveType
deriving DecidableEq

/-- `calculate_price` of `lib.rs` (lines 247–296).  The Rust function returns
`Result<u64>` but every arithmetic check ends in `.unwrap()`, so its only
failure mode is a panic, modelled as `none`.

Per-branch notes on the embedding:
* Linear and Exponential use the unchecked `edition as u64 - 1`
  (`uncheckedSub`).
* Logarithmic computes `(edition as f64).log2() as u64`.  For `edition` in
  the `u32` range the value of that expression is `Nat.log2 edition`:
  `f64` represents every `u32` exactly, `log2` of an exact power of two is
  exact, for other arguments the distance of `log2 edition` to the nearest
  integer exceeds any libm rounding error, and the saturating `as u64` cast
  of the IEEE-mandated `log2(0.0) = -inf` is `0 = Nat.log2 0`.
* Bezier evaluates `(edition as u64 * 10000) / max_supply as u64` first, so
  `max_supply = 0` is a division-by-zero panic before anything else; the
  multiplication `edition * 10000` cannot overflow `u64` for a `u32`
  edition and is therefore unchecked in the source as well. -/
def calculate_price (curve_type : CurveType) (base_price price_increment : Nat)
    (edition : Nat) (bezier_min_price bezier_max_price : Nat) (max_supply : Nat) :
    Option Nat :=
  match curve_type with
  | .Linear =>
      (uncheckedSub edition 1).bind fun e1 =>
      (checkedMul e1 price_increment).bind fun step =>
      checkedAdd base_price step
  | .Exponential =>
      (uncheckedSub edition 1).bind fun e1 =>
      (checkedMul price_increment e1).bind fun m =>
      (checkedMul base_price (m / 10000)).bind fun p =>
      checkedAdd base_price p
  | .Logarithmic =>
      (checkedMul price_increment (Nat.log2 edition)).bind fun step =>
      checkedAdd base_price step
  | .Bezier =>
      if max_supply = 0 then none
      else
        (checkedSub bezier_max_price bezier_min_price).bind fun price_range =>
        (checkedMul price_range (edition * 10000 / max_supply)).bind fun pd =>
        checkedAdd bezier_min_price (pd / 10000)

/-- Characterization of a successful Linear price evaluation. -/
theorem calculate_price_linear_eq {b inc e m1 m2 ms p : Nat} (he : 1 ≤ e) :
    calculate_price .Linear b inc e m1 m2 ms = some p ↔
      (e - 1) * inc < U64SIZE ∧ b + (e - 1) * inc < U64SIZE ∧
        p = b + (e - 1) * inc := by
  simp only [calculate_price, uncheckedSub, checkedMul, checkedAdd, he, if_pos,
    Option.some_bind]
  split_ifs <;> simp_all [eq_comm]

/-- Characterization of a successful Exponential price evaluation. -/
theorem calculate_price_expo_eq {b inc e m1 m2 ms p : Nat} (he : 1 ≤ e) :
    calculate_price .Exponential b inc e m1 m2 ms = some p ↔
      inc * (e - 1) < U64SIZE ∧ b * (inc * (e - 1) / 10000) < U64SIZE ∧
        b + b * (inc * (e - 1) / 10000) < U64SIZE ∧
        p = b + b * (inc * (e - 1) / 10000) := by
  simp only [calculate_price, uncheckedSub, checkedMul, checkedAdd, he, if_pos,
    Option.some_bind]
  repeat' split_ifs <;> simp_all [eq_comm]

/-- Characterization of a successful Logarithmic price evaluation. -/
theorem calculate_price_log_eq {b inc e m1 m2 ms p : Nat} :
    calculate_price .Logarithmic b inc e m1 m2 ms = some p ↔
      inc * Nat.log2 e < U64SIZE ∧ b + inc * Nat.log2 e < U64SIZE ∧
        p = b + inc * Nat.log2 e := by
  simp only [calculate_price, checkedMul, checkedAdd, Option.some_bind]
  split_ifs <;> simp_all [eq_comm]

/-- Characterization of a successful Bezier (interpolated) price evaluation. -/
theorem calculate_price_bezier_eq {b inc e m1 m2 ms p : Nat} (hms : ms ≠ 0)
    (hm : m1 ≤ m2) :
    calculate_price .Bezier b inc e m1 m2 ms = some p ↔
      (m2 - m1) * (e * 10000 / ms) < U64SIZE ∧
        m1 + (m2 - m1) * (e * 10000 / ms) / 10000 < U64SIZE ∧
        p = m1 + (m2 - m1) * (e * 10000 / ms) / 10000 := by
  simp only [calculate_price, checkedSub, checkedMul, checkedAdd, hms, hm, if_pos,
    if_neg, Option.some_bind]
  repeat' split_ifs <;> simp_all [eq_comm]

/-- The `BondingCurve` account of `lib.rs` (lines 442–457).  `Pubkey` values
are opaque identities, embedded as `Nat`. -/
structure BondingCurve where
  authority : Nat
  collection_mint : Nat
  curve_type : CurveType
  base_price : Nat
  price_increment : Nat
  max_supply : Nat
  current_supply : Nat
  total_volume : Nat
  bump : Nat
  bezier_min_price : Nat
  bezier_max_price : Nat
deriving DecidableEq

/-- The `BezierPriceLookup` account of `lib.rs` (lines 461–466). -/
structure BezierPriceLookup where
  bonding_curve : Nat
  prices : List Nat
  bump : Nat
deriving DecidableEq

/-- `initialize_curve` of `lib.rs` (lines 12–45): builds a fresh config with
zero supply and volume; an omitted Bezier bound defaults to `base_price`
(`unwrap_or(base_price)`, lines 34–35). -/
def initialize_curve (authority collection_mint : Nat) (curve_type : CurveType)
    (base_price price_increment max_supply : Nat)
    (bezier_min_price bezier_max_price : Option Nat) (bump : Nat) : BondingCurve :=
  { authority := authority
    collection_mint := collection_mint
    curve_type := curve_type
    base_price := base_price
    price_increment := price_increment
    max_supply := max_supply
    current_supply := 0
    total_volume := 0
    bump := bump
    bezier_min_price := bezier_min_price.getD base_price
    bezier_max_price := bezier_max_price.getD base_price }

/-- Outcome classification of one mint attempt.  `program e` is a Rust
`Err(e)` from a `require!` or `ok_or`; `aborted` is a panic (which, like an
error, rolls the transaction back); the remaining constructors are failures
of the external collaborator CPIs (payment transfer, token mint, and — in
the Metaplex variant — metadata and master-edition creation), each of which
propagates through `?` and likewise aborts the transaction. -/
inductive MintError where
  | program : BondingCurveError → MintError
  | aborted : MintError
  | paymentFailed : MintError
  | issuanceFailed : MintError
  | metadataFailed : MintError
  | masterEditionFailed : MintError
deriving DecidableEq

/-- `mint_edition` of `lib.rs` (lines 48–113).  Returns the account state as
it stands when the instruction returns, and the receipt price or the error.
The source mutates the account only at lines 106–107, after the supply
check, the price calculation, the payment `invoke` and the `mint_to` CPI
have all succeeded; any earlier failure leaves the account untouched (and
the runtime additionally rolls back the transaction).  The two external
calls are boolean oracles `paymentOk` / `issuanceOk`. -/
def mint_edition (curve : BondingCurve) (paymentOk issuanceOk : Bool) :
    BondingCurve × Except MintError Nat :=
  if curve.current_supply < curve.max_supply then
    match calculate_price curve.curve_type curve.base_price curve.price_increment
        (curve.current_supply + 1) curve.bezier_min_price curve.bezier_max_price
        curve.max_supply with
    | none => (curve, .error .aborted)
    | some current_price =>
      if paymentOk then
        if issuanceOk then
          match uncheckedAdd32 curve.current_supply 1,
              uncheckedAdd64 curve.total_volume current_price with
          | some s, some v =>
            ({ curve with current_supply := s, total_volume := v }, .ok current_price)
          | _, _ => (curve, .error .aborted)
        else (curve, .error .issuanceFailed)
      else (curve, .error .paymentFailed)
  else (curve, .error (.program .MaxSupplyReached))

/-- `mint_edition_with_bezier_lookup` of `lib.rs` (lines 183–243): like
`mint_edition` but the price is `lookup.prices[current_supply]`, with a
missing entry reported as `PriceNotFound` (line 198). -/
def mint_edition_with_bezier_lookup (curve : BondingCurve)
    (lookup : BezierPriceLookup) (paymentOk issuanceOk : Bool) :
    BondingCurve × Except MintError Nat :=
  if curve.current_supply < curve.max_supply then
    match lookup.prices[curve.current_supply]? with
    | none => (curve, .error (.program .PriceNotFound))
    | some current_price =>
      if paymentOk then
        if issuanceOk then
          match uncheckedAdd32 curve.current_supply 1,
              uncheckedAdd64 curve.total_volume current_price with
          | some s, some v =>
            ({ curve with current_supply := s, total_volume := v }, .ok current_price)
          | _, _ => (curve, .error .aborted)
        else (curve, .error .issuanceFailed)
      else (curve, .error .paymentFailed)
  else (curve, .error (.program .MaxSupplyReached))

/-- `update_curve` of `lib.rs` (lines 116–144) together with the
`UpdateCurve` account constraint (line 357), which rejects any caller other
than the stored authority with `Unauthorized` before the handler body runs.
On failure the runtime discards every write, so an error returns no state. -/
def update_curve (curve : BondingCurve) (caller : Nat)
    (new_base_price new_price_increment : Option Nat)
    (new_max_supply : Option Nat) : Except MintError BondingCurve :=
  if caller = curve.authority then
    let c2 := { curve with
      base_price := new_base_price.getD curve.base_price,
      price_increment := new_price_increment.getD curve.price_increment }
    match new_max_supply with
    | some ms =>
      if curve.current_supply ≤ ms then .ok { c2 with max_supply := ms }
      else .error (.program .InvalidMaxSupply)
    | none => .ok c2
  else .error (.program .Unauthorized)

/-- `close_curve` of `lib.rs` (lines 147–158) together with the `CloseCurve`
account constraints (lines 365–377): `Unauthorized` for a non-authority
caller, `CurveNotEmpty` unless `current_supply = 0`; on success the account
is destroyed (`close = authority`), so `ok` returns no surviving state. -/
def close_curve (curve : BondingCurve) (caller : Nat) : Except MintError Unit :=
  if caller = curve.authority then
    if curve.current_supply = 0 then .ok () else .error (.program .CurveNotEmpty)
  else .error (.program .Unauthorized)

/-- `initialize_bezier_lookup` of `lib.rs` (lines 162–180) together with the
`InitializeBezierLookup` account constraints (lines 390–393), checked in
order: the owning curve must be of kind `Bezier` (`InvalidCurveType`), the
caller must be its authority (`Unauthorized`), and the handler then requires
`prices.len() ≤ max_supply` (`InvalidPriceLookup`).  On success the lookup
stores the owning curve's key, the price list and the bump. -/
def initialize_bezier_lookup (curve : BondingCurve) (caller : Nat)
    (curve_key bump : Nat) (prices : List Nat) :
    Except MintError BezierPriceLookup :=
  if curve.curve_type = CurveType.Bezier then
    if caller = curve.authority then
      if prices.length ≤ curve.max_supply then
        .ok { bonding_curve := curve_key, prices := prices, bump := bump }
      else .error (.program .InvalidPriceLookup)
    else .error (.program .Unauthorized)
  else .error (.program .InvalidCurveType)

/-- One mint attempt against a `lib.rs` config: either of the two mint entry
points, with its external-call oracles. -/
inductive MintOp where
  | plain (paymentOk issuanceOk : Bool)
  | viaLookup (lookup : BezierPriceLookup) (paymentOk issuanceOk : Bool)

/-- Dispatch one `MintOp`. -/
def execMintOp (curve : BondingCurve) : MintOp → BondingCurve × Except MintError Nat
  | .plain po io => mint_edition curve po io
  | .viaLookup l po io => mint_edition_with_bezier_lookup curve l po io

/-- Run a sequence of mint attempts, requiring every one of them to succeed:
returns the final state and the in-order list of prices charged, or `none`
as soon as any attempt fails. -/
def runMints (curve : BondingCurve) : List MintOp → Option (BondingCurve × List Nat)
  | [] => some (curve, [])
  | op :: ops =>
    match execMintOp curve op with
    | (c, .ok p) => (runMints c ops).map fun r => (r.1, p :: r.2)
    | (_, .error _) => none

/-- The `BondingCurve` account of `lib_with_metaplex.rs` (lines 319–329):
no curve-type tag and no Bezier bounds — the pricing is always linear. -/
structure MplBondingCurve where
  authority : Nat
  collection_mint : Nat
  base_price : Nat
  price_increment : Nat
  max_supply : Nat
  current_supply : Nat
  total_volume : Nat
  bump : Nat
deriving DecidableEq

/-- The linear price expression of `lib_with_metaplex.rs`, written
identically in `mint_edition` (lines 60–66) and `get_price` (lines 202–208):

`base_price.checked_add(current_supply.checked_mul(price_increment as u32)
  .ok_or(ArithmeticOverflow)? as u64).ok_or(ArithmeticOverflow)?`

`current_supply` is a `u32` and `price_increment as u32` truncates the
`u64` increment to its low 32 bits, so the product is formed — and its
overflow check applied — in 32-bit arithmetic before widening to `u64` for
the final checked addition. -/
def metaplex_price (base_price price_increment current_supply : Nat) :
    Except BondingCurveError Nat :=
  if current_supply * (price_increment % U32SIZE) < U32SIZE then
    if base_price + current_supply * (price_increment % U32SIZE) < U64SIZE then
      .ok (base_price + current_supply * (price_increment % U32SIZE))
    else .error .ArithmeticOverflow
  else .error .ArithmeticOverflow

/-- `mint_edition` of `lib_with_metaplex.rs` (lines 37–194): supply check,
linear price (with explicit `ArithmeticOverflow` errors), then four external
calls in order — payment transfer, `mint_to`, metadata creation, master
edition creation — and only then the supply/volume update (lines 190–191).
Each external call is a boolean oracle; as in `mint_edition`, the account is
returned as it stands when the instruction returns. -/
def metaplex_mint_edition (curve : MplBondingCurve)
    (paymentOk issuanceOk metadataOk masterEditionOk : Bool) :
    MplBondingCurve × Except MintError Nat :=
  if curve.current_supply < curve.max_supply then
    match metaplex_price curve.base_price curve.price_increment curve.current_supply with
    | .error e => (curve, .error (.program e))
    | .ok current_price =>
      if paymentOk then
        if issuanceOk then
          if metadataOk then
            if masterEditionOk then
              match uncheckedAdd32 curve.current_supply 1,
                  uncheckedAdd64 curve.total_volume current_price with
              | some s, some v =>
                ({ curve with current_supply := s, total_volume := v },
                  .ok current_price)
              | _, _ => (curve, .error .aborted)
            else (curve, .error .masterEditionFailed)
          else (curve, .error .metadataFailed)
        else (curve, .error .issuanceFailed)
      else (curve, .error .paymentFailed)
  else (curve, .error (.program .MaxSupplyReached))

/-- Shape of a successful `mint_edition`: both external calls succeeded and
the only state change is `current_supply + 1` and `total_volume + price`. -/
theorem mint_edition_ok {c c' : BondingCurve} {po io : Bool} {p : Nat}
    (h : mint_edition c po io = (c', .ok p)) :
    c.current_supply < c.max_supply ∧ po = true ∧ io = true ∧
      c' = { c with current_supply := c.current_supply + 1,
                    total_volume := c.total_volume + p } := by
  unfold mint_edition uncheckedAdd32 uncheckedAdd64 at h
  repeat' split at h
  all_goals simp_all [Prod.ext_iff]

/-- Shape of a successful `mint_edition_with_bezier_lookup`: the price comes
from the lookup entry at index `current_supply`, both external calls
succeeded, and the only state change is the supply/volume update. -/
theorem mint_edition_with_bezier_lookup_ok {c c' : BondingCurve}
    {l : BezierPriceLookup} {po io : Bool} {p : Nat}
    (h : mint_edition_with_bezier_lookup c l po io = (c', .ok p)) :
    c.current_supply < c.max_supply ∧ po = true ∧ io = true ∧
      l.prices[c.current_supply]? = some p ∧
      c' = { c with current_supply := c.current_supply + 1,
                    total_volume := c.total_volume + p } := by
  unfold mint_edition_with_bezier_lookup uncheckedAdd32 uncheckedAdd64 at h
  repeat' split at h
  all_goals simp_all [Prod.ext_iff]

/-- Every failing `mint_edition` returns the input state unchanged. -/
theorem mint_edition_error {c : BondingCurve} {po io : Bool} {e : MintError}
    (h : (mint_edition c po io).2 = .error e) : (mint_edition c po io).1 = c := by
  unfold mint_edition at h ⊢
  repeat' split
  all_goals simp_all

/-- Every failing `mint_edition_with_bezier_lookup` returns the input state
unchanged. -/
theorem mint_edition_with_bezier_lookup_error {c : BondingCurve}
    {l : BezierPriceLookup} {po io : Bool} {e : MintError}
    (h : (mint_edition_with_bezier_lookup c l po io).2 = .error e) :
    (mint_edition_with_bezier_lookup c l po io).1 = c := by
  unfold mint_edition_with_bezier_lookup at h ⊢
  repeat' split
  all_goals simp_all

/-- Shape of a successful `metaplex_mint_edition`: all four external calls
succeeded and the only state change is the supply/volume update. -/
theorem metaplex_mint_edition_ok {c c' : MplBondingCurve}
    {po io mo mn : Bool} {p : Nat}
    (h : metaplex_mint_edition c po io mo mn = (c', .ok p)) :
    c.current_supply < c.max_supply ∧ po = true ∧ io = true ∧ mo = true ∧
      mn = true ∧
      metaplex_price c.base_price c.price_increment c.current_supply = .ok p ∧
      c' = { c with current_supply := c.current_supply + 1,
                    total_volume := c.total_volume + p } := by
  unfold metaplex_mint_edition uncheckedAdd32 uncheckedAdd64 at h
  repeat' split at h
  all_goals simp_all [Prod.ext_iff]

/-- Every failing `metaplex_mint_edition` returns the input state unchanged. -/
theorem metaplex_mint_edition_error {c : MplBondingCurve}
    {po io mo mn : Bool} {e : MintError}
    (h : (metaplex_mint_edition c po io mo mn).2 = .error e) :
    (metaplex_mint_edition c po io mo mn).1 = c := by
  unfold metaplex_mint_edition at h ⊢
  repeat' split
  all_goals simp_all

/-- A successful mint attempt, through either entry point, increments the
supply by exactly one and adds exactly the charged price to the volume. -/
theorem execMintOp_ok {c c' : BondingCurve} {op : MintOp} {p : Nat}
    (h : execMintOp c op = (c', .ok p)) :
    c'.current_supply = c.current_supply + 1 ∧
      c'.total_volume = c.total_volume + p := by
  cases op with
  | plain po io =>
    have hs := mint_edition_ok h
    rw [hs.2.2.2]
    exact ⟨rfl, rfl⟩
  | viaLookup l po io =>
    have hs := mint_edition_with_bezier_lookup_ok h
    rw [hs.2.2.2.2]
    exact ⟨rfl, rfl⟩

/-- Accounting along any all-successful run of mint attempts. -/
theorem runMints_some {ops : List MintOp} {c c' : BondingCurve} {ps : List Nat}
    (h : runMints c ops = some (c', ps)) :
    ps.length = ops.length ∧
      c'.current_supply = c.current_supply + ops.length ∧
      c'.total_volume = c.total_volume + ps.sum := by
  induction ops generalizing c ps with
  | nil =>
    simp only [runMints, Option.some.injEq, Prod.mk.injEq] at h
    simp [← h.1, ← h.2]
  | cons op ops ih =>
    unfold runMints at h
    split at h
    · rename_i c1 p heq
      cases hr : runMints c1 ops with
      | none => rw [hr] at h; simp at h
      | some r =>
        rw [hr] at h
        simp only [Option.map_some', Option.some.injEq, Prod.mk.injEq] at h
        obtain ⟨h1, h2⟩ := h
        obtain ⟨hs, hv⟩ := execMintOp_ok heq
        have hrec := @ih c1 r.2 (by rw [hr, ← h1])
        subst h1
        rw [← h2]
        refine ⟨by simp [hrec.1], ?_, ?_⟩
        · rw [hrec.2.1, hs]; simp; omega
        · rw [hrec.2.2, hv]; simp; omega
    · simp at h

/-- C1: starting from a fresh config (`current_supply = 0`,
`total_volume = 0`), after any all-successful sequence of `k` mint attempts
(each through `mint_edition` or `mint_edition_with_bezier_lookup`),
`current_supply = k` and `total_volume` is the exact sum of the `k` prices
charged, in order — no drift, no lost or duplicated payments. -/
theorem supply_volume_consistency {ops : List MintOp} {c c' : BondingCurve}
    {ps : List Nat} (h0 : c.current_supply = 0) (hv : c.total_volume = 0)
    (h : runMints c ops = some (c', ps)) :
    ps.length = ops.length ∧ c'.current_supply = ops.length ∧
      c'.total_volume = ps.sum := by
  have hr := runMints_some h
  rw [h0] at hr
  rw [hv] at hr
  simpa using hr

/-- Concrete Linear config from the spec's §8 example scenario
(`base_price = 1000`, `price_increment = 100`, `max_supply = 3`). -/
def exampleCurve : BondingCurve :=
  initialize_curve 1 2 .Linear 1000 100 3 none none 255

/-- `exampleCurve` after two successful mints. -/
def exampleAfter2 : BondingCurve :=
  { exampleCurve with current_supply := 2, total_volume := 2100 }

/-- Witness for C1: two successful mints against the fresh example config
leave `current_supply = 2` and `total_volume = 1000 + 1100`. -/
theorem supply_volume_consistency_witness :
    ([1000, 1100] : List Nat).length =
        [MintOp.plain true true, MintOp.plain true true].length ∧
      exampleAfter2.current_supply =
        [MintOp.plain true true, MintOp.plain true true].length ∧
      exampleAfter2.total_volume = ([1000, 1100] : List Nat).sum :=
  supply_volume_consistency (c := exampleCurve) rfl rfl (by decide)

/-- A successful `mint_edition` charged exactly the price that
`calculate_price` quotes at edition index `current_supply + 1`. -/
theorem mint_edition_ok_price {c c' : BondingCurve} {po io : Bool} {p : Nat}
    (h : mint_edition c po io = (c', .ok p)) :
    calculate_price c.curve_type c.base_price c.price_increment
      (c.current_supply + 1) c.bezier_min_price c.bezier_max_price
      c.max_supply = some p := by
  unfold mint_edition uncheckedAdd32 uncheckedAdd64 at h
  repeat' split at h
  all_goals simp_all

/-- C2: every failure path of a mint attempt — the supply-cap check, the
price evaluation or lookup, the payment transfer, or any issuance call —
returns the accounting state exactly as it was, in all three mint entry
points; and a mint returns a receipt only when every external call
succeeded, so the supply/volume update happens only after payment and
issuance both went through (in particular, issuance failure after a
successful payment leaves the state unchanged). -/
theorem mint_failure_atomicity (c : BondingCurve) (cm : MplBondingCurve)
    (l : BezierPriceLookup) (po io mo mn : Bool) :
    (∀ e : MintError, (mint_edition c po io).2 = .error e →
        (mint_edition c po io).1 = c) ∧
    (∀ p : Nat, (mint_edition c po io).2 = .ok p → po = true ∧ io = true) ∧
    (∀ e : MintError, (mint_edition_with_bezier_lookup c l po io).2 = .error e →
        (mint_edition_with_bezier_lookup c l po io).1 = c) ∧
    (∀ p : Nat, (mint_edition_with_bezier_lookup c l po io).2 = .ok p →
        po = true ∧ io = true) ∧
    (∀ e : MintError, (metaplex_mint_edition cm po io mo mn).2 = .error e →
        (metaplex_mint_edition cm po io mo mn).1 = cm) ∧
    (∀ p : Nat, (metaplex_mint_edition cm po io mo mn).2 = .ok p →
        po = true ∧ io = true ∧ mo = true ∧ mn = true) := by
  refine ⟨fun e he => mint_edition_error he, fun p hp => ?_,
    fun e he => mint_edition_with_bezier_lookup_error he, fun p hp => ?_,
    fun e he => metaplex_mint_edition_error he, fun p hp => ?_⟩
  · have h : mint_edition c po io = ((mint_edition c po io).1, .ok p) := by
      rw [← hp]
    exact ⟨(mint_edition_ok h).2.1, (mint_edition_ok h).2.2.1⟩
  · have h : mint_edition_with_bezier_lookup c l po io =
        ((mint_edition_with_bezier_lookup c l po io).1, .ok p) := by
      rw [← hp]
    exact ⟨(mint_edition_with_bezier_lookup_ok h).2.1,
      (mint_edition_with_bezier_lookup_ok h).2.2.1⟩
  · have h : metaplex_mint_edition cm po io mo mn =
        ((metaplex_mint_edition cm po io mo mn).1, .ok p) := by
      rw [← hp]
    have hs := metaplex_mint_edition_ok h
    exact ⟨hs.2.1, hs.2.2.1, hs.2.2.2.1, hs.2.2.2.2.1⟩

/-- Concrete `lib_with_metaplex.rs` config used in witnesses. -/
def exampleMplCurve : MplBondingCurve :=
  { authority := 1, collection_mint := 2, base_price := 1000,
    price_increment := 100, max_supply := 3, current_supply := 0,
    total_volume := 0, bump := 255 }

/-- Concrete lookup table used in witnesses. -/
def exampleLookup : BezierPriceLookup :=
  { bonding_curve := 9, prices := [500, 700, 900], bump := 254 }

/-- Witness for C2: a mint whose issuance call fails after a successful
payment reports the failure and leaves the accounting state untouched. -/
theorem mint_failure_atomicity_witness :
    (mint_edition exampleCurve true false).1 = exampleCurve ∧
      (mint_edition exampleCurve true false).2 = .error .issuanceFailed :=
  ⟨(mint_failure_atomicity exampleCurve exampleMplCurve exampleLookup
      true false true true).1 .issuanceFailed rfl, rfl⟩

/-- `exampleCurve` after three successful mints at prices 1000, 1100, 1200. -/
def exampleAfter3 : BondingCurve :=
  { exampleCurve with current_supply := 3, total_volume := 3300 }

/-- C3: on a Linear config, every successful mint charges exactly
`base_price + (edition_index - 1) * price_increment` with
`edition_index = current_supply + 1` read before the increment; on the
spec's example config (`base = 1000`, `increment = 100`, `max_supply = 3`)
three successive mints collect 1000, 1100, 1200, leaving
`current_supply = 3` and `total_volume = 3300`, and a fourth attempt fails
with `MaxSupplyReached` (the spec's `SupplyExhausted`). -/
theorem linear_mint_pricing (c c' : BondingCurve) (po io : Bool) (p : Nat) :
    (c.curve_type = .Linear → mint_edition c po io = (c', .ok p) →
      p = c.base_price + c.current_supply * c.price_increment) ∧
    runMints exampleCurve
        [.plain true true, .plain true true, .plain true true] =
      some (exampleAfter3, [1000, 1100, 1200]) ∧
    exampleAfter3.current_supply = 3 ∧ exampleAfter3.total_volume = 3300 ∧
    mint_edition exampleAfter3 true true =
      (exampleAfter3, .error (.program .MaxSupplyReached)) := by
  refine ⟨fun hl h => ?_, rfl, rfl, rfl, rfl⟩
  have hq := mint_edition_ok_price h
  rw [hl] at hq
  have := (calculate_price_linear_eq (by omega)).mp hq
  simpa using this.2.2

/-- Witness for C3: the first mint against the example config charges
`1000 = base_price + 0 * increment`. -/
theorem linear_mint_pricing_witness :
    (1000 : Nat) =
      exampleCurve.base_price +
        exampleCurve.current_supply * exampleCurve.price_increment :=
  (linear_mint_pricing exampleCurve
      { exampleCurve with current_supply := 1, total_volume := 1000 }
      true true 1000).1 rfl rfl

/-- A successful `update_curve` preserves `current_supply <= max_supply`. -/
theorem update_curve_ok_invariant {c c2 : BondingCurve} {caller : Nat}
    {nb ni nms : Option Nat} (hinv : c.current_supply ≤ c.max_supply)
    (h : update_curve c caller nb ni nms = .ok c2) :
    c2.current_supply ≤ c2.max_supply := by
  unfold update_curve at h
  split at h
  · split at h
    · split at h
      · injection h with h
        subst h
        simp_all
      · injection h
    · injection h with h
      subst h
      simpa using hinv
  · injection h

/-- C4: `current_supply <= max_supply` in every reachable state — a mint
attempt with `current_supply >= max_supply` fails with `MaxSupplyReached`
(the spec's `SupplyExhausted`) before any effect, through either entry
point; an authorized `update_curve` rejects with `InvalidMaxSupply` any new
cap below `current_supply`; and every state produced by a successful mint
or parameter update satisfies the invariant. -/
theorem supply_cap_invariant (c c' : BondingCurve) (l : BezierPriceLookup)
    (po io : Bool) (caller : Nat) (nb ni nms : Option Nat) (ms : Nat) :
    (c.max_supply ≤ c.current_supply →
      mint_edition c po io = (c, .error (.program .MaxSupplyReached)) ∧
      mint_edition_with_bezier_lookup c l po io =
        (c, .error (.program .MaxSupplyReached))) ∧
    (caller = c.authority → ms < c.current_supply →
      update_curve c caller nb ni (some ms) =
        .error (.program .InvalidMaxSupply)) ∧
    (∀ q : Nat, mint_edition c po io = (c', .ok q) →
      c'.current_supply ≤ c'.max_supply) ∧
    (∀ q : Nat, mint_edition_with_bezier_lookup c l po io = (c', .ok q) →
      c'.current_supply ≤ c'.max_supply) ∧
    (c.current_supply ≤ c.max_supply →
      ∀ c2 : BondingCurve, update_curve c caller nb ni nms = .ok c2 →
        c2.current_supply ≤ c2.max_supply) := by
  refine ⟨fun hfull => ?_, fun hc hlt => ?_, fun q h => ?_, fun q h => ?_,
    fun hinv c2 h => ?_⟩
  · constructor
    · unfold mint_edition
      rw [if_neg (Nat.not_lt.mpr hfull)]
    · unfold mint_edition_with_bezier_lookup
      rw [if_neg (Nat.not_lt.mpr hfull)]
  · have hn : ¬ (c.current_supply ≤ ms) := by omega
    simp [update_curve, hc, hn]
  · have hs := mint_edition_ok h
    rw [hs.2.2.2]
    simp
    omega
  · have hs := mint_edition_with_bezier_lookup_ok h
    rw [hs.2.2.2.2]
    simp
    omega
  · exact update_curve_ok_invariant hinv h

/-- Witness for C4: on the example config filled to its cap, a further mint
attempt fails with `MaxSupplyReached`, and shrinking the cap below the
supply is rejected. -/
theorem supply_cap_invariant_witness :
    mint_edition exampleAfter3 true true =
        (exampleAfter3, .error (.program .MaxSupplyReached)) ∧
      update_curve exampleAfter3 1 none none (some 2) =
        .error (.program .InvalidMaxSupply) :=
  ⟨((supply_cap_invariant exampleAfter3 exampleAfter3 exampleLookup true true
      1 none none (some 2) 2).1 (by decide)).1,
    (supply_cap_invariant exampleAfter3 exampleAfter3 exampleLookup true true
      1 none none (some 2) 2).2.1 (by decide) (by decide)⟩

/-- C5 counterexample: the claim says every curve kind rejects
`edition_index = 0` with a domain error and signals overflow with a
distinct `OverflowError`.  In the code, Logarithmic at edition 0 returns
the base price (the saturating `as u64` cast of `log2(0.0) = -inf` is 0),
it does not reject at all; and a Linear evaluation that overflows produces
exactly the same observable outcome (an aborting panic, `none`) as a
Linear evaluation of the invalid edition 0, so the two are not
distinguishable. -/
theorem price_error_counterexample :
    calculate_price .Logarithmic 1000 100 0 0 0 10 = some 1000 ∧
      calculate_price .Linear 1000 100 0 0 0 10 = none ∧
      calculate_price .Linear (U64SIZE - 1) 1 2 0 0 10 = none ∧
      calculate_price .Linear 1000 100 0 0 0 10 =
        calculate_price .Linear (U64SIZE - 1) 1 2 0 0 10 := by
  have hl : Nat.log2 0 = 0 := by
    rw [Nat.log2_eq_log_two]
    simp
  refine ⟨?_, by decide, by decide, by decide⟩
  rw [calculate_price_log_eq, hl]
  exact ⟨by decide, by decide, by decide⟩

/-- C5 (amended): `calculate_price` never wraps or saturates, but it does
not return distinguishable errors either — every arithmetic-overflow check
ends in `unwrap()` and `max_supply = 0` is a division by zero, so all of
those abort (panic, modelled `none`); `edition_index = 0` aborts on the
Linear and Exponential kinds (underflow of `edition - 1`), while the
Logarithmic kind returns `base_price` and the Bezier kind returns its
floor price, with no rejection at all. -/
theorem price_error_behavior (b inc m1 m2 ms e : Nat) (hb : b < U64SIZE)
    (hm1 : m1 < U64SIZE) (hm : m1 ≤ m2) (hms : 0 < ms) :
    calculate_price .Linear b inc 0 m1 m2 ms = none ∧
      calculate_price .Exponential b inc 0 m1 m2 ms = none ∧
      calculate_price .Logarithmic b inc 0 m1 m2 ms = some b ∧
      calculate_price .Bezier b inc 0 m1 m2 ms = some m1 ∧
      calculate_price .Bezier b inc e m1 m2 0 = none := by
  have h64 : 0 < U64SIZE := by decide
  refine ⟨?_, ?_, ?_, ?_, ?_⟩
  · simp [calculate_price, uncheckedSub]
  · simp [calculate_price, uncheckedSub]
  · have hl : Nat.log2 0 = 0 := by
      rw [Nat.log2_eq_log_two]
      simp
    rw [calculate_price_log_eq, hl]
    exact ⟨by simpa using h64, by simpa using hb, by simp⟩
  · have hz : 0 * 10000 / ms = 0 := by simp
    simp [calculate_price, checkedSub, checkedMul, checkedAdd, hm, hm1,
      hms.ne', hz, h64]
  · simp [calculate_price]

/-- Witness for C5 (amended): the four behaviors at concrete inputs. -/
theorem price_error_behavior_witness :
    calculate_price .Linear 50 7 0 10 30 4 = none ∧
      calculate_price .Exponential 50 7 0 10 30 4 = none ∧
      calculate_price .Logarithmic 50 7 0 10 30 4 = some 50 ∧
      calculate_price .Bezier 50 7 0 10 30 4 = some 10 ∧
      calculate_price .Bezier 50 7 2 10 30 0 = none :=
  price_error_behavior 50 7 10 30 4 2 (by decide) (by decide) (by decide)
    (by decide)

/-- C6: for every curve kind, with `ceiling >= floor` and `max_supply > 0`
for the interpolated (Bezier) kind, the price is monotonically
non-decreasing in the edition index: whenever two valid edition indices
`i < j` (with `1 <= i`, `j <= max_supply`) both evaluate to a price,
`price(i) <= price(j)`. -/
theorem price_monotone (ct : CurveType) (b inc i j m1 m2 ms p q : Nat)
    (hi : 1 ≤ i) (hij : i < j) (hj : j ≤ ms)
    (hm : ct = CurveType.Bezier → m1 ≤ m2)
    (hp : calculate_price ct b inc i m1 m2 ms = some p)
    (hq : calculate_price ct b inc j m1 m2 ms = some q) : p ≤ q := by
  have hij' : i ≤ j := le_of_lt hij
  have hj1 : 1 ≤ j := le_trans hi hij'
  have hms : 0 < ms := by omega
  cases ct with
  | Linear =>
    obtain ⟨_, _, hp'⟩ := (calculate_price_linear_eq hi).mp hp
    obtain ⟨_, _, hq'⟩ := (calculate_price_linear_eq hj1).mp hq
    subst hp' hq'
    have h1 : (i - 1) * inc ≤ (j - 1) * inc :=
      Nat.mul_le_mul (by omega) (le_refl inc)
    omega
  | Exponential =>
    obtain ⟨_, _, _, hp'⟩ := (calculate_price_expo_eq hi).mp hp
    obtain ⟨_, _, _, hq'⟩ := (calculate_price_expo_eq hj1).mp hq
    subst hp' hq'
    have h1 : inc * (i - 1) ≤ inc * (j - 1) :=
      Nat.mul_le_mul (le_refl inc) (by omega)
    have h2 : inc * (i - 1) / 10000 ≤ inc * (j - 1) / 10000 :=
      Nat.div_le_div_right h1
    have h3 : b * (inc * (i - 1) / 10000) ≤ b * (inc * (j - 1) / 10000) :=
      Nat.mul_le_mul (le_refl b) h2
    omega
  | Logarithmic =>
    obtain ⟨_, _, hp'⟩ := calculate_price_log_eq.mp hp
    obtain ⟨_, _, hq'⟩ := calculate_price_log_eq.mp hq
    subst hp' hq'
    have hl : Nat.log2 i ≤ Nat.log2 j := by
      rw [Nat.log2_eq_log_two, Nat.log2_eq_log_two]
      exact Nat.log_mono_right hij'
    have h1 : inc * Nat.log2 i ≤ inc * Nat.log2 j :=
      Nat.mul_le_mul (le_refl inc) hl
    omega
  | Bezier =>
    obtain ⟨_, _, hp'⟩ := (calculate_price_bezier_eq hms.ne' (hm rfl)).mp hp
    obtain ⟨_, _, hq'⟩ := (calculate_price_bezier_eq hms.ne' (hm rfl)).mp hq
    subst hp' hq'
    have h1 : i * 10000 / ms ≤ j * 10000 / ms :=
      Nat.div_le_div_right (Nat.mul_le_mul hij' (le_refl 10000))
    have h2 : (m2 - m1) * (i * 10000 / ms) ≤ (m2 - m1) * (j * 10000 / ms) :=
      Nat.mul_le_mul (le_refl (m2 - m1)) h1
    have h3 : (m2 - m1) * (i * 10000 / ms) / 10000 ≤
        (m2 - m1) * (j * 10000 / ms) / 10000 :=
      Nat.div_le_div_right h2
    omega

/-- Witness for C6: on the example Linear curve, the price at edition 1 is
at most the price at edition 2. -/
theorem price_monotone_witness : (1000 : Nat) ≤ 1100 :=
  price_monotone .Linear 1000 100 1 2 0 0 3 1000 1100 (by decide) (by decide)
    (by decide) (by decide) (by decide) (by decide)

/-- C7: `update_curve` and `close_curve` fail with `Unauthorized` for every
caller other than the stored authority, regardless of the other arguments;
and `close_curve` succeeds (destroying the config, whose reserved storage
the runtime returns to the authority via the `close = authority`
constraint) exactly when the caller is the authority and
`current_supply = 0`, failing with `CurveNotEmpty` otherwise. -/
theorem governance_authorization (c : BondingCurve) (caller : Nat)
    (nb ni nms : Option Nat) :
    (caller ≠ c.authority →
      update_curve c caller nb ni nms = .error (.program .Unauthorized) ∧
      close_curve c caller = .error (.program .Unauthorized)) ∧
    (close_curve c caller = .ok () ↔
      caller = c.authority ∧ c.current_supply = 0) ∧
    (caller = c.authority → c.current_supply ≠ 0 →
      close_curve c caller = .error (.program .CurveNotEmpty)) := by
  refine ⟨fun hne => ⟨?_, ?_⟩, ?_, fun hc hs => ?_⟩
  · simp [update_curve, hne]
  · simp [close_curve, hne]
  · unfold close_curve
    split_ifs <;> simp_all
  · simp [close_curve, hc, hs]

/-- Witness for C7: caller 2 is not the example config's authority (1), so
both governance operations are rejected; the authority can close the fresh
(empty) config but not the filled one. -/
theorem governance_authorization_witness :
    (update_curve exampleCurve 2 (some 5) none none =
        .error (.program .Unauthorized) ∧
      close_curve exampleCurve 2 = .error (.program .Unauthorized)) ∧
      close_curve exampleCurve 1 = .ok () ∧
      close_curve exampleAfter3 1 = .error (.program .CurveNotEmpty) :=
  ⟨(governance_authorization exampleCurve 2 (some 5) none none).1
      (by decide),
    (governance_authorization exampleCurve 1 (some 5) none none).2.1.mpr
      ⟨rfl, rfl⟩,
    (governance_authorization exampleAfter3 1 (some 5) none none).2.2 rfl
      (by decide)⟩

/-- C8: `initialize_bezier_lookup` succeeds exactly when the owning curve is
of kind `Bezier`, the caller is its authority, and the price sequence is no
longer than `max_supply`; in particular `len = max_supply + 1` fails with
`InvalidPriceLookup` while `len = max_supply` succeeds, and the mismatched
curve kind and foreign caller are rejected with `InvalidCurveType` and
`Unauthorized` respectively. -/
theorem lookup_table_validation (c : BondingCurve) (caller curve_key bump : Nat)
    (prices : List Nat) :
    (initialize_bezier_lookup c caller curve_key bump prices =
        .ok { bonding_curve := curve_key, prices := prices, bump := bump } ↔
      c.curve_type = .Bezier ∧ caller = c.authority ∧
        prices.length ≤ c.max_supply) ∧
    (c.curve_type ≠ .Bezier →
      initialize_bezier_lookup c caller curve_key bump prices =
        .error (.program .InvalidCurveType)) ∧
    (c.curve_type = .Bezier → caller ≠ c.authority →
      initialize_bezier_lookup c caller curve_key bump prices =
        .error (.program .Unauthorized)) ∧
    (c.curve_type = .Bezier → caller = c.authority →
      prices.length = c.max_supply + 1 →
      initialize_bezier_lookup c caller curve_key bump prices =
        .error (.program .InvalidPriceLookup)) ∧
    (c.curve_type = .Bezier → caller = c.authority →
      prices.length = c.max_supply →
      initialize_bezier_lookup c caller curve_key bump prices =
        .ok { bonding_curve := curve_key, prices := prices, bump := bump }) := by
  refine ⟨?_, fun hk => ?_, fun hk hne => ?_, fun hk hc hlen => ?_,
    fun hk hc hlen => ?_⟩
  · unfold initialize_bezier_lookup
    split_ifs <;> simp_all
  · simp [initialize_bezier_lookup, hk]
  · simp [initialize_bezier_lookup, hk, hne]
  · have hn : ¬ (prices.length ≤ c.max_supply) := by omega
    simp [initialize_bezier_lookup, hk, hc, hn]
  · have hle : prices.length ≤ c.max_supply := le_of_eq hlen
    simp [initialize_bezier_lookup, hk, hc, hle]

/-- A concrete Bezier-kind config for the C8 witness (`max_supply = 3`). -/
def exampleBezierCurve : BondingCurve :=
  initialize_curve 1 2 .Bezier 1000 0 3 (some 1000) (some 4000) 255

/-- Witness for C8: against a Bezier config with `max_supply = 3`, a
4-entry price list is rejected with `InvalidPriceLookup` and a 3-entry
price list is accepted. -/
theorem lookup_table_validation_witness :
    initialize_bezier_lookup exampleBezierCurve 1 9 254 [1, 2, 3, 4] =
        .error (.program .InvalidPriceLookup) ∧
      initialize_bezier_lookup exampleBezierCurve 1 9 254 [1, 2, 3] =
        .ok { bonding_curve := 9, prices := [1, 2, 3], bump := 254 } :=
  ⟨(lookup_table_validation exampleBezierCurve 1 9 254 [1, 2, 3, 4]).2.2.2.1
      rfl rfl (by decide),
    (lookup_table_validation exampleBezierCurve 1 9 254 [1, 2, 3]).2.2.2.2
      rfl rfl (by decide)⟩

/-- C9 counterexample: the claim says the Metaplex variant's linear price
equals the primary `calculate_price(Linear, base, inc, supply + 1)` and
that both are checked at every step with no narrower intermediate
arithmetic.  In the code, the Metaplex variant truncates `price_increment`
to `u32` (`price_increment as u32`) and checks the product in 32-bit
arithmetic: with `base = 0`, `increment = 2^32`, `supply = 1` it returns
price 0 while the primary variant returns `2^32`; and with `base = 0`,
`increment = 2^31`, `supply = 2` it reports `ArithmeticOverflow` while the
primary variant returns `2^32`. -/
theorem metaplex_price_counterexample :
    metaplex_price 0 U32SIZE 1 = .ok 0 ∧
      calculate_price .Linear 0 U32SIZE 2 0 0 10 = some U32SIZE ∧
      (0 : Nat) ≠ U32SIZE ∧
      metaplex_price 0 (2 ^ 31) 2 = .error .ArithmeticOverflow ∧
      calculate_price .Linear 0 (2 ^ 31) 3 0 0 10 = some U32SIZE := by
  refine ⟨rfl, by decide, by decide, rfl, by decide⟩

/-- C9 (amended): the Metaplex variant computes the linear price with the
increment truncated to `u32` and the product checked in 32-bit arithmetic,
so it agrees with the primary variant's
`calculate_price(Linear, base, inc, current_supply + 1)` — same price on
success and failure exactly when the sum is not representable — only on the
domain where `price_increment < 2^32` and
`current_supply * price_increment < 2^32`; outside that domain it can
return a smaller (truncated) price or signal `ArithmeticOverflow` where the
primary variant succeeds. -/
theorem metaplex_price_refines (b inc s m1 m2 ms p : Nat)
    (hinc : inc < U32SIZE) (hprod : s * inc < U32SIZE) :
    (metaplex_price b inc s = .ok p ↔
      calculate_price .Linear b inc (s + 1) m1 m2 ms = some p) ∧
    (metaplex_price b inc s = .error .ArithmeticOverflow ↔
      calculate_price .Linear b inc (s + 1) m1 m2 ms = none) := by
  have hmod : inc % U32SIZE = inc := Nat.mod_eq_of_lt hinc
  have h64 : s * inc < U64SIZE := lt_trans hprod (by decide)
  have hsub : uncheckedSub (s + 1) 1 = some s := by
    simp [uncheckedSub]
  constructor
  · rw [calculate_price_linear_eq (by omega)]
    simp only [Nat.add_sub_cancel]
    unfold metaplex_price
    rw [hmod, if_pos hprod]
    split_ifs with h
    · simp only [Except.ok.injEq]
      exact ⟨fun hh => ⟨h64, h, hh.symm⟩, fun hh => hh.2.2.symm⟩
    · exact ⟨fun hh => absurd hh (by simp), fun hh => absurd hh.2.1 h⟩
  · unfold calculate_price
    rw [hsub]
    simp only [Option.some_bind, Nat.add_sub_cancel]
    unfold metaplex_price checkedMul checkedAdd
    rw [hmod, if_pos hprod, if_pos h64]
    simp only [Option.some_bind]
    split_ifs with h
    · exact ⟨fun hh => absurd hh (by simp), fun hh => absurd hh (by simp)⟩
    · exact ⟨fun _ => rfl, fun _ => rfl⟩

/-- Witness for C9 (amended): with `base = 1000`, `increment = 100`,
`supply = 2` — inside the agreement domain — both variants price the third
edition at 1200. -/
theorem metaplex_price_refines_witness :
    (metaplex_price 1000 100 2 = Except.ok 1200 ↔
        calculate_price .Linear 1000 100 3 0 0 10 = some 1200) ∧
      (metaplex_price 1000 100 2 = .error .ArithmeticOverflow ↔
        calculate_price .Linear 1000 100 3 0 0 10 = none) :=
  metaplex_price_refines 1000 100 2 0 0 10 1200 (by decide) (by decide)

/-- C10: an omitted Bezier bound in `initialize_curve` defaults to
`base_price`; a Bezier config created with both bounds omitted therefore
quotes exactly `base_price` for every edition index
`1 <= i <= max_supply` (`max_supply > 0`) — the curve degenerates to a
constant price. -/
theorem bezier_default_constant (a cm inc ms bump base i : Nat)
    (hb : base < U64SIZE) (hms : 0 < ms) (_hi : 1 ≤ i) (_him : i ≤ ms) :
    (initialize_curve a cm .Bezier base inc ms none none bump).bezier_min_price
        = base ∧
      (initialize_curve a cm .Bezier base inc ms none none bump).bezier_max_price
        = base ∧
      calculate_price .Bezier base inc i
          (initialize_curve a cm .Bezier base inc ms none none bump).bezier_min_price
          (initialize_curve a cm .Bezier base inc ms none none bump).bezier_max_price
          ms = some base := by
  refine ⟨rfl, rfl, ?_⟩
  show calculate_price .Bezier base inc i base base ms = some base
  rw [calculate_price_bezier_eq hms.ne' (le_refl base)]
  have h64 : 0 < U64SIZE := by decide
  refine ⟨by simpa using h64, by simpa using hb, by simp⟩

/-- Witness for C10: a Bezier config created with both bounds omitted and
`base_price = 777` quotes 777 at edition 2 of 4. -/
theorem bezier_default_constant_witness :
    (initialize_curve 1 2 .Bezier 777 5 4 none none 255).bezier_min_price
        = 777 ∧
      (initialize_curve 1 2 .Bezier 777 5 4 none none 255).bezier_max_price
        = 777 ∧
      calculate_price .Bezier 777 5 2
          (initialize_curve 1 2 .Bezier 777 5 4 none none 255).bezier_min_price
          (initialize_curve 1 2 .Bezier 777 5 4 none none 255).bezier_max_price
          4 = some 777 :=
  bezier_default_constant 1 2 5 4 255 777 2 (by decide) (by decide)
    (by decide) (by decide)

end BondingCurveSpec
